import Mathlib

/-!
# Verification of the reminder scheduling and notification engine

Shallow embedding of the scheduling core of the `task-reminder` application
(Rust sources under `src/src-tauri/src`):

* `models/reminder.rs` — `RepeatInterval` (string-descriptor parsing) and the
  `Reminder` entity with `is_due`, `should_repeat_now`, `next_trigger_time`;
* `repositories/reminder_repository.rs` — the SQLite-backed store operations
  `find_due_reminders`, `mark_as_triggered`, `deactivate`,
  `update_next_trigger_time`;
* `notification/mod.rs` — the thread-based scheduler loop wired in `main.rs`;
* `services/notification_service.rs` — the second (services) scheduler variant
  and its `check_and_notify` body.

Modelling conventions:

* Instants are `Int` — seconds since the Unix epoch, second resolution.
  The Rust code stores instants as RFC 3339 text (`DateTime::to_rfc3339`) and
  the model renders an `Int` instant to exactly that text (for whole seconds
  chrono prints no fractional part).  All instants written by this program are
  post-epoch, which the rendering functions assume.
* Rust functions that read the ambient clock (`Utc::now()`) take the clock
  reading as an explicit `now` parameter; one poll iteration of the scheduler
  is modelled as using a single clock reading.
* Machine integers: the parsed interval value is an `i64`, and the duration
  table's `value * 30` / `value * 365` are plain `i64` multiplications — they
  wrap in a release build (`wrap64` below; a debug build would panic instead,
  the shipped release semantics is modelled).  `chrono::Duration` constructors
  panic beyond `±i64::MAX` milliseconds; that outcome is encoded explicitly
  (`chronoSecs` returning `none`), the program aborts there, and no theorem
  relies on a panicking input.
* SQLite compares `TEXT` values with `memcmp` on their UTF-8 bytes; all texts
  involved are ASCII, so this is modelled by byte-wise (code-point) order on
  the character lists (`bytesLt` below).  The SQL `ORDER BY remind_at ASC` is
  modelled by a stable insertion sort under that order on the stored text.
* The database state is a list of typed rows (the stored texts are always the
  renderings of typed values produced by this program's own writes, so a row is
  represented by its typed contents); SQL `UPDATE ... WHERE id = ?` maps over
  all rows with the matching id.  Store writes do not fail in the model (the
  Rust error branches only log).
-/

namespace TaskReminder

/-! ## Splitting on underscores, integer parsing (Rust `str::split('_')`,
`str::parse::<i64>()`) -/

/-- Rust `s.split('_')`: splits a character list at every underscore, keeping
empty segments (leading, trailing, and between consecutive separators). -/

def splitUnderscore : List Char → List (List Char)
  | [] => [[]]
  | c :: rest =>
    let r := splitUnderscore rest
    if c = '_' then [] :: r
    else
      match r with
      | h :: t => (c :: h) :: t
      | [] => [[c]]

/-- Rust `"_".join(parts)` (`Vec::join` with separator `"_"`). -/

def joinUnderscore : List (List Char) → List Char
  | [] => []
  | [p] => p
  | p :: rest => p ++ '_' :: joinUnderscore rest

/-- Accumulate a decimal value over a character list; `none` as soon as a
non-digit appears. -/

def digitsVal : List Char → Nat → Option Nat
  | [], acc => some acc
  | c :: cs, acc =>
    if c.isDigit then digitsVal cs (acc * 10 + (c.toNat - 48)) else none

/-- Rust `str::parse::<i64>()`: optional sign, then one or more ASCII digits,
rejecting the empty digit string and values outside the `i64` range. -/

def parseI64 (s : List Char) : Option Int :=
  match s with
  | [] => none
  | '+' :: rest =>
    match rest with
    | [] => none
    | _ =>
      (digitsVal rest 0).bind fun n =>
        if n ≤ 9223372036854775807 then some (Int.ofNat n) else none
  | '-' :: rest =>
    match rest with
    | [] => none
    | _ =>
      (digitsVal rest 0).bind fun n =>
        if n ≤ 9223372036854775808 then some (-(Int.ofNat n)) else none
  | _ =>
    (digitsVal s 0).bind fun n =>
      if n ≤ 9223372036854775807 then some (Int.ofNat n) else none

/-! ## `RepeatInterval` (`models/reminder.rs`)

The Rust type is a newtype over `String`; the model works with the wrapped
string directly. -/

namespace RepeatInterval

/-- `RepeatInterval::is_repeating`: true iff the descriptor differs from
`"none"`. -/

def is_repeating (s : String) : Bool :=
  s != "none"

/-- `RepeatInterval::parse`: `none` for `"none"`; otherwise split on `'_'`,
require at least 3 parts with the second parsing as an `i64`, and rejoin the
trailing parts into the unit. -/

def parse (s : String) : Option (String × Int × String) :=
  if s = "none" then none
  else
    let parts := splitUnderscore s.data
    if 3 ≤ parts.length then
      match parseI64 (parts.getD 1 []) with
      | some value =>
        some (String.mk (parts.getD 0 []), value, String.mk (joinUnderscore (parts.drop 2)))
      | none => none
    else none

end RepeatInterval

/-! ## The `Reminder` entity (`models/reminder.rs`) -/

/-- `Reminder` (`models/reminder.rs`): instants as epoch seconds, the repeat
interval as its wrapped descriptor string. -/

structure Reminder where
  id : String
  task_id : Option String
  title : String
  description : Option String
  remind_at : Int
  repeat_interval : String
  is_active : Bool
  last_triggered_at : Option Int
  created_at : Int
  updated_at : Int
  deriving DecidableEq, Repr

/-- `i64::MIN`. -/
def i64Min : Int := -9223372036854775808

/-- Two's-complement wrap of an integer product into `i64` — what the plain
`value * 30` / `value * 365` multiplications in the Rust source do in a
release build (a debug build would panic on overflow; the shipped binary is
modelled). -/
def wrap64 (x : Int) : Int :=
  (x - i64Min) % 18446744073709551616 + i64Min

/-- `chrono::Duration` bounds: every constructor panics when the span exceeds
`i64::MAX` milliseconds in magnitude, which for whole seconds means
`|secs| ≤ 9223372036854775` (`i64::MAX / 1000`; the lower bound
`i64::MIN` ms = −9223372036854775.808 s admits the same whole-second range).
The `checked_mul` inside `Duration::minutes/hours/days/weeks` also panics on
`i64` overflow, but any overflowing product already exceeds this bound over
`ℤ`, so the single bound captures the combined panic condition.  `none` means
the constructor panics. -/
def chronoSecs (p : Int) : Option Int :=
  if -9223372036854775 ≤ p ∧ p ≤ 9223372036854775 then some p else none

/-- The outcome, in seconds, of the `match unit.as_str()` duration table that
both `should_repeat_now` and `next_trigger_time` contain (`chrono::Duration`
over the parsed `i64` value; month ≈ 30 days, year ≈ 365 days, computed as
`Duration::days(value * 30)` / `Duration::days(value * 365)` where the inner
multiplication wraps in release mode).  `none` is the `_ => return ...` arm
for an unknown unit; `some none` means the chrono constructor panics (the
program aborts); `some (some d)` is a duration of `d` whole seconds. -/
def durationSecs (unit : String) (value : Int) : Option (Option Int) :=
  if unit = "seconds" ∨ unit = "second" then some (chronoSecs value)
  else if unit = "minutes" ∨ unit = "minute" then some (chronoSecs (value * 60))
  else if unit = "hours" ∨ unit = "hour" then some (chronoSecs (value * 3600))
  else if unit = "days" ∨ unit = "day" then some (chronoSecs (value * 86400))
  else if unit = "weeks" ∨ unit = "week" then some (chronoSecs (value * 604800))
  else if unit = "months" ∨ unit = "month" then
    some (chronoSecs (wrap64 (value * 30) * 86400))
  else if unit = "years" ∨ unit = "year" then
    some (chronoSecs (wrap64 (value * 365) * 86400))
  else none

namespace Reminder

/-- `Reminder::should_repeat_now(last_triggered, now)`: parse the descriptor;
`"after"` never repeats; `"every"` repeats iff `now - last_triggered` has
reached the unit duration; unknown unit or unparseable descriptor → `false`.
On the `some none` (panic) arm the Rust program aborts; the total model
returns `false` there, and no theorem below relies on a panicking input. -/

def should_repeat_now (r : Reminder) (last_triggered now : Int) : Bool :=
  match RepeatInterval.parse r.repeat_interval with
  | some (interval_type, value, unit) =>
    if interval_type = "after" then false
    else
      match durationSecs unit value with
      | some (some d) => decide (now - last_triggered ≥ d)
      | some none => false
      | none => false
  | none => false

/-- `Reminder::is_due` (the ambient `Utc::now()` is the `now` parameter):
inactive → false; not yet time → false; non-repeating → due iff never
triggered; repeating → due iff never triggered or `should_repeat_now`. -/

def is_due (r : Reminder) (now : Int) : Bool :=
  if !r.is_active then false
  else if r.remind_at > now then false
  else if !(RepeatInterval.is_repeating r.repeat_interval) then
    r.last_triggered_at.isNone
  else
    match r.last_triggered_at with
    | some last_triggered => r.should_repeat_now last_triggered now
    | none => true

/-- `Reminder::next_trigger_time`: `none` if inactive or non-repeating; base is
`last_triggered_at` if present else `remind_at`; `"after"` → `none`; `"every"`
→ base plus the unit duration; unknown unit or unparseable → `none`.  On the
`some none` (panic) arm the Rust program aborts; the total model returns
`none` there, and no theorem below relies on a panicking input. -/

def next_trigger_time (r : Reminder) : Option Int :=
  if !r.is_active || !(RepeatInterval.is_repeating r.repeat_interval) then none
  else
    let base_time := r.last_triggered_at.getD r.remind_at
    match RepeatInterval.parse r.repeat_interval with
    | some (interval_type, value, unit) =>
      if interval_type = "after" then none
      else
        match durationSecs unit value with
        | some (some d) => some (base_time + d)
        | some none => none
        | none => none
    | none => none

end Reminder

/-! ## Stored text renderings and the SQLite `TEXT` order

`mark_as_triggered`, `create` and `update_next_trigger_time` store instants as
`DateTime::<Utc>::to_rfc3339()` text (`YYYY-MM-DDTHH:MM:SS+00:00` for whole
seconds), while the cool-down threshold in `find_due_reminders` is produced by
SQLite's `datetime('now', '-1 minute')` (`YYYY-MM-DD HH:MM:SS`).  SQLite
compares the two as raw bytes. -/

/-- Gregorian civil date (year, month, day) of a day count since 1970-01-01
(standard era-based conversion; exact for all post-epoch days). -/

def civilFromDays (z : Nat) : Nat × Nat × Nat :=
  let z := z + 719468
  let era := z / 146097
  let doe := z % 146097
  let yoe := (doe - doe / 1460 + doe / 36524 - doe / 146096) / 365
  let y := yoe + era * 400
  let doy := doe - (365 * yoe + yoe / 4 - yoe / 100)
  let mp := (5 * doy + 2) / 153
  let d := doy - (153 * mp + 2) / 5 + 1
  let m := if mp < 10 then mp + 3 else mp - 9
  (if m ≤ 2 then y + 1 else y, m, d)

/-- The ASCII digit for `n % 10`. -/

def digitChar (n : Nat) : Char :=
  Char.ofNat (48 + n % 10)

/-- Two-digit zero-padded decimal (month, day, hour, minute, second fields). -/

def pad2 (n : Nat) : List Char :=
  [digitChar (n / 10), digitChar n]

/-- Four-digit zero-padded decimal (the year field; all instants this program
writes have four-digit years). -/

def pad4 (n : Nat) : List Char :=
  [digitChar (n / 1000), digitChar (n / 100), digitChar (n / 10), digitChar n]

/-- `DateTime::<Utc>::to_rfc3339()` of a post-epoch instant (whole seconds):
`YYYY-MM-DDTHH:MM:SS+00:00`. -/

def toRfc3339Chars (t : Int) : List Char :=
  let n := t.toNat
  let (y, m, d) := civilFromDays (n / 86400)
  let rem := n % 86400
  pad4 y ++ '-' :: pad2 m ++ '-' :: pad2 d ++ 'T' :: pad2 (rem / 3600) ++
    ':' :: pad2 (rem / 60 % 60) ++ ':' :: pad2 (rem % 60) ++
    ['+', '0', '0', ':', '0', '0']

/-- SQLite `datetime(...)` text of a post-epoch instant:
`YYYY-MM-DD HH:MM:SS`. -/

def toSqliteChars (t : Int) : List Char :=
  let n := t.toNat
  let (y, m, d) := civilFromDays (n / 86400)
  let rem := n % 86400
  pad4 y ++ '-' :: pad2 m ++ '-' :: pad2 d ++ ' ' :: pad2 (rem / 3600) ++
    ':' :: pad2 (rem / 60 % 60) ++ ':' :: pad2 (rem % 60)

/-- SQLite `BINARY` collation on ASCII text: strict byte-wise lexicographic
order on the code points. -/

def bytesLt : List Char → List Char → Bool
  | _, [] => false
  | [], _ :: _ => true
  | a :: as, b :: bs =>
    if a.toNat < b.toNat then true
    else if b.toNat < a.toNat then false
    else bytesLt as bs

/-- The reflexive closure of `bytesLt` (SQLite `<=` on `TEXT`). -/

def bytesLe (a b : List Char) : Bool :=
  !(bytesLt b a)

/-! ## `ReminderRepository` (`repositories/reminder_repository.rs`)

The store state is the list of rows of the `reminders` table.  A SQL
`UPDATE ... WHERE id = ?` rewrites every row whose id matches. -/

/-- `UPDATE reminders SET ... WHERE id = ?`: apply `f` to the rows whose id
matches. -/

def updateById (db : List Reminder) (id : String) (f : Reminder → Reminder) :
    List Reminder :=
  db.map fun r => if r.id = id then f r else r

/-- `ReminderRepository::mark_as_triggered`:
`UPDATE reminders SET last_triggered_at = ?1 WHERE id = ?2` with `?1` the
clock reading at the call (`Utc::now().to_rfc3339()`); the Rust function takes
no timestamp argument, `now` here is that clock reading. -/

def mark_as_triggered (db : List Reminder) (id : String) (now : Int) :
    List Reminder :=
  updateById db id fun r => { r with last_triggered_at := some now }

/-- `ReminderRepository::deactivate`:
`UPDATE reminders SET is_active = 0 WHERE id = ?1`. -/

def deactivate (db : List Reminder) (id : String) : List Reminder :=
  updateById db id fun r => { r with is_active := false }

/-- `ReminderRepository::update_next_trigger_time`:
`UPDATE reminders SET remind_at = ?1, updated_at = ?2 WHERE id = ?3` with `?2`
the clock reading at the call. -/

def update_next_trigger_time (db : List Reminder) (id : String)
    (next_trigger now : Int) : List Reminder :=
  updateById db id fun r => { r with remind_at := next_trigger, updated_at := now }

/-- The SQL `WHERE` clause of `find_due_reminders`:
`is_active = 1 AND remind_at <= ?1 AND (last_triggered_at IS NULL OR
last_triggered_at < datetime('now', '-1 minute'))`, where `?1` is
`Utc::now().to_rfc3339()`.  All three comparisons are SQLite `TEXT`
comparisons on the stored renderings. -/

def coarseDue (now : Int) (r : Reminder) : Bool :=
  r.is_active &&
  bytesLe (toRfc3339Chars r.remind_at) (toRfc3339Chars now) &&
  match r.last_triggered_at with
  | none => true
  | some last => bytesLt (toRfc3339Chars last) (toSqliteChars (now - 60))

/-- The `ORDER BY remind_at ASC` key order: SQLite `TEXT` order on the stored
rendering of `remind_at`. -/

def rowLe (a b : Reminder) : Prop :=
  bytesLe (toRfc3339Chars a.remind_at) (toRfc3339Chars b.remind_at) = true

instance : DecidableRel rowLe := fun _ _ =>
  inferInstanceAs (Decidable (_ = true))

/-- `ReminderRepository::find_due_reminders`: the coarse SQL filter, the
`ORDER BY remind_at ASC` sort, then the in-process re-check
`if reminder.is_due()` that silently drops non-due candidates.  The Rust
`is_due` re-reads the clock moments after the query; one poll uses a single
reading `now` in the model. -/

def find_due_reminders (db : List Reminder) (now : Int) : List Reminder :=
  ((db.filter (coarseDue now)).insertionSort rowLe).filter fun r => r.is_due now

/-! ## The two scheduler-loop bodies

`notification/mod.rs` (`NotificationService::start`, the variant `main.rs`
wires): per due reminder — `trigger_notification` (frontend emit and OS `show`
whose outcomes are consumed internally and never reported to the loop), then
`mark_as_triggered` unconditionally, then for a repeating descriptor
`next_trigger_time()` on the polled copy and `update_next_trigger_time` when it
is `some`; for a non-repeating descriptor only a log line.

`services/notification_service.rs` (`NotificationService::check_and_notify`):
per due reminder — `send_notification`, and on its failure `continue` (the
reminder is skipped entirely); on success `mark_as_triggered`, then the
frontend emit.  `dispatchOutcome` models the external sink's success/failure
per reminder. -/

/-- One due reminder's processing in the `notification/mod.rs` loop body. -/

def processDueReminder (dispatchOutcome : Reminder → Bool)
    (db : List Reminder) (now : Int) (r : Reminder) : List Reminder :=
  let _dispatched := dispatchOutcome r
  let db1 := mark_as_triggered db r.id now
  if RepeatInterval.is_repeating r.repeat_interval then
    match r.next_trigger_time with
    | some next_time => update_next_trigger_time db1 r.id next_time now
    | none => db1
  else db1

/-- One iteration of the `notification/mod.rs` poll loop: fetch the due
reminders, then process them in order. -/

def schedulerLoopBody (dispatchOutcome : Reminder → Bool)
    (db : List Reminder) (now : Int) : List Reminder :=
  (find_due_reminders db now).foldl
    (fun st r => processDueReminder dispatchOutcome st now r) db

/-- `services/notification_service.rs` `check_and_notify`: a failed dispatch
`continue`s past `mark_as_triggered`. -/

def check_and_notify (dispatchOutcome : Reminder → Bool)
    (db : List Reminder) (now : Int) : List Reminder :=
  (find_due_reminders db now).foldl
    (fun st r => if dispatchOutcome r then mark_as_triggered st r.id now else st) db

/-! ## Row-wise view of the scheduler loop body

Every store write of the loop is a row-wise map over the table, so one loop
iteration is a row-wise map; `stepFn` is the effect of processing one due
reminder `r` on one table row. -/

/-- The effect on a single table row of processing the due reminder `r` in the
`notification/mod.rs` loop body. -/

def stepFn (now : Int) (r : Reminder) (row : Reminder) : Reminder :=
  let row1 := if row.id = r.id then { row with last_triggered_at := some now } else row
  if RepeatInterval.is_repeating r.repeat_interval then
    match r.next_trigger_time with
    | some next_time =>
      if row1.id = r.id then { row1 with remind_at := next_time, updated_at := now }
      else row1
    | none => row1
  else row1

/-- The cumulative effect on a single table row of processing the due list `L`. -/

def rowsAction (L : List Reminder) (now : Int) (row : Reminder) : Reminder :=
  L.foldl (fun row r => stepFn now r row) row

/-- A due non-repeating reminder, used against the `check_and_notify` variant
of the scheduler (`services/notification_service.rs`). -/

def cexC1 : Reminder :=
  { id := "c1", task_id := none, title := "c1", description := none,
    remind_at := 1768478300, repeat_interval := "none", is_active := true,
    last_triggered_at := none, created_at := 1768478000,
    updated_at := 1768478000 }

/-- A due repeating reminder for the C1 witness. -/

def wC1 : Reminder :=
  { id := "w1", task_id := none, title := "w1", description := none,
    remind_at := 1768478300, repeat_interval := "every_10_minutes",
    is_active := true, last_triggered_at := none, created_at := 1768478000,
    updated_at := 1768478000 }

/-- A due non-repeating reminder for the C2 counterexample. -/

def cexC2 : Reminder :=
  { id := "c2", task_id := none, title := "c2", description := none,
    remind_at := 1768478300, repeat_interval := "none", is_active := true,
    last_triggered_at := none, created_at := 1768478000,
    updated_at := 1768478000 }

/-- A due non-repeating reminder for the C2 witness. -/

def wC2 : Reminder :=
  { id := "w2", task_id := none, title := "w2", description := none,
    remind_at := 1768478300, repeat_interval := "none", is_active := true,
    last_triggered_at := none, created_at := 1768478000,
    updated_at := 1768478000 }

/-- A fired `after_1_hour` reminder for the C4 witness. -/

def wC4 : Reminder :=
  { id := "w4", task_id := none, title := "w4", description := none,
    remind_at := 1768478300, repeat_interval := "after_1_hour",
    is_active := true, last_triggered_at := some 1768478300,
    created_at := 1768478000, updated_at := 1768478000 }

/-- An active overdue repeating reminder last triggered 30 s before
`now = 1768478400` (2026-01-15 12:00:00 UTC). -/

def rC5a : Reminder :=
  { id := "c5a", task_id := none, title := "c5", description := none,
    remind_at := 1768474800, repeat_interval := "every_1_minutes",
    is_active := true, last_triggered_at := some (1768478400 - 30),
    created_at := 1768471200, updated_at := 1768471200 }

/-- The same reminder last triggered 2 minutes before `now`. -/

def rC5b : Reminder :=
  { rC5a with id := "c5b", last_triggered_at := some (1768478400 - 120) }

/-- The same reminder last triggered one day before `now`. -/

def rC5c : Reminder :=
  { rC5a with id := "c5c", last_triggered_at := some (1768478400 - 86400) }

/-- A due reminder for the C6 witness. -/

def wC6 : Reminder :=
  { id := "w6", task_id := none, title := "w6", description := none,
    remind_at := 1768478300, repeat_interval := "none", is_active := true,
    last_triggered_at := none, created_at := 1768478000,
    updated_at := 1768478000 }

/-- Scenario A of the spec: an active `every_10_minutes` reminder scheduled at
`T`, never triggered. -/

def scenarioA (T : Int) : Reminder :=
  { id := "a", task_id := none, title := "a", description := none,
    remind_at := T, repeat_interval := "every_10_minutes", is_active := true,
    last_triggered_at := none, created_at := T, updated_at := T }

/-- Scenario A after its fire at `T`: `last_triggered_at` recorded. -/

def scenarioAFired (T : Int) : Reminder :=
  { scenarioA T with last_triggered_at := some T }

/-- Scenario A after its fire at `T` and the reschedule to `T + 600`. -/

def scenarioARescheduled (T : Int) : Reminder :=
  { scenarioAFired T with remind_at := T + 600, updated_at := T }

/-- A reminder with the malformed descriptor `"weekly"` for the C8 witness. -/

def wC8 : Reminder :=
  { id := "w8", task_id := none, title := "w8", description := none,
    remind_at := 1768478300, repeat_interval := "weekly", is_active := true,
    last_triggered_at := some 1768478300, created_at := 1768478000,
    updated_at := 1768478000 }

/-- An active overdue `every_0_seconds` reminder for the C9 witness. -/

def wC9 : Reminder :=
  { id := "w9", task_id := none, title := "w9", description := none,
    remind_at := 1768478300, repeat_interval := "every_0_seconds",
    is_active := true, last_triggered_at := some 1768478300,
    created_at := 1768478000, updated_at := 1768478000 }

/-- An active overdue reminder whose descriptor carries the negative value
−614891469123651720 with unit months, for the C9 counterexample: the source's
plain `i64` multiplication `value * 30` wraps (release build) from
−18446744073709551600 to +16, so the "duration" becomes +16 days. -/

def rC9 : Reminder :=
  { id := "c9", task_id := none, title := "c9", description := none,
    remind_at := 1768478300,
    repeat_interval := "every_-614891469123651720_months", is_active := true,
    last_triggered_at := some 1768478399, created_at := 1768478000,
    updated_at := 1768478000 }

/-! ## Properties of the byte-wise text order -/

theorem bytesLt_irrefl : ∀ l : List Char, bytesLt l l = false
  | [] => rfl
  | c :: cs => by
    simp only [bytesLt, lt_irrefl, if_false]
    exact bytesLt_irrefl cs

theorem bytesLt_false_total :
    ∀ a b : List Char, bytesLt a b = false ∨ bytesLt b a = false
  | [], [] => by simp [bytesLt]
  | [], _ :: _ => by simp [bytesLt]
  | _ :: _, [] => by simp [bytesLt]
  | a :: as, b :: bs => by
    by_cases hab : a.toNat < b.toNat
    · right
      simp only [bytesLt, if_neg (by omega : ¬b.toNat < a.toNat), if_pos hab]
    · by_cases hba : b.toNat < a.toNat
      · left
        simp only [bytesLt, if_neg hab, if_pos hba]
      · rcases bytesLt_false_total as bs with h | h
        · left
          simp only [bytesLt, if_neg hab, if_neg hba, h]
        · right
          simp only [bytesLt, if_neg hba, if_neg hab, h]

theorem bytesLt_false_trans :
    ∀ a b c : List Char, bytesLt b a = false → bytesLt c b = false →
      bytesLt c a = false
  | [], _, c => by
    intro _ _
    cases c <;> rfl
  | _ :: _, [], _ => by
    intro h1 _
    simp [bytesLt] at h1
  | _ :: _, _ :: _, [] => by
    intro _ h2
    simp [bytesLt] at h2
  | x :: as, y :: bs, z :: cs => by
    intro h1 h2
    simp only [bytesLt] at h1 h2 ⊢
    by_cases hyx : y.toNat < x.toNat
    · simp [hyx] at h1
    · by_cases hzy : z.toNat < y.toNat
      · simp [hzy] at h2
      · rw [if_neg hyx] at h1
        rw [if_neg hzy] at h2
        rw [if_neg (by omega : ¬z.toNat < x.toNat)]
        by_cases hxz : x.toNat < z.toNat
        · rw [if_pos hxz]
        · rw [if_neg hxz]
          have hxy : ¬x.toNat < y.toNat := by
            intro h
            rw [if_pos h] at h1
            omega
          have hyz : ¬y.toNat < z.toNat := by
            intro h
            rw [if_pos h] at h2
            omega
          rw [if_neg hxy] at h1
          rw [if_neg hyz] at h2
          exact bytesLt_false_trans as bs cs h1 h2

theorem bytesLe_refl (l : List Char) : bytesLe l l = true := by
  simp [bytesLe, bytesLt_irrefl]

instance : IsTotal Reminder rowLe :=
  ⟨fun a b => by
    unfold rowLe bytesLe
    rcases bytesLt_false_total (toRfc3339Chars b.remind_at)
        (toRfc3339Chars a.remind_at) with h | h
    · left
      simp [h]
    · right
      simp [h]⟩

instance : IsTrans Reminder rowLe :=
  ⟨fun a b c hab hbc => by
    unfold rowLe bytesLe at hab hbc ⊢
    simp only [Bool.not_eq_true', Bool.not_eq_false] at hab hbc ⊢
    exact bytesLt_false_trans _ _ _ hab hbc⟩

theorem processDueReminder_eq_map (d : Reminder → Bool) (st : List Reminder)
    (now : Int) (r : Reminder) :
    processDueReminder d st now r = st.map (stepFn now r) := by
  unfold processDueReminder stepFn mark_as_triggered update_next_trigger_time updateById
  by_cases hrep : RepeatInterval.is_repeating r.repeat_interval
  · rw [if_pos hrep]
    cases hnt : r.next_trigger_time with
    | none => simp [hrep, hnt]
    | some next_time => simp [hrep, hnt, List.map_map, Function.comp]
  · simp [hrep]

theorem foldl_process_eq_map (d : Reminder → Bool) (now : Int) :
    ∀ (L : List Reminder) (st : List Reminder),
      L.foldl (fun st r => processDueReminder d st now r) st =
        st.map (rowsAction L now)
  | [], st => (List.map_id' st).symm
  | r :: L, st => by
    rw [List.foldl_cons, foldl_process_eq_map d now L,
      processDueReminder_eq_map, List.map_map]
    rfl

theorem schedulerLoopBody_eq_map (d : Reminder → Bool) (db : List Reminder)
    (now : Int) :
    schedulerLoopBody d db now =
      db.map (rowsAction (find_due_reminders db now) now) := by
  unfold schedulerLoopBody
  exact foldl_process_eq_map d now _ db

theorem stepFn_id (now : Int) (r row : Reminder) :
    (stepFn now r row).id = row.id := by
  unfold stepFn
  by_cases h : row.id = r.id <;>
    by_cases hrep : RepeatInterval.is_repeating r.repeat_interval <;>
      cases hnt : r.next_trigger_time <;> simp [h, hrep, hnt]

theorem stepFn_other (now : Int) (r row : Reminder) (h : row.id ≠ r.id) :
    stepFn now r row = row := by
  unfold stepFn
  by_cases hrep : RepeatInterval.is_repeating r.repeat_interval <;>
    cases hnt : r.next_trigger_time <;> simp [h, hrep, hnt]

theorem rowsAction_id (now : Int) :
    ∀ (L : List Reminder) (row : Reminder), (rowsAction L now row).id = row.id
  | [], _ => rfl
  | r :: L, row => by
    unfold rowsAction
    rw [List.foldl_cons]
    rw [show (List.foldl (fun row r => stepFn now r row) (stepFn now r row) L) =
      rowsAction L now (stepFn now r row) from rfl]
    rw [rowsAction_id now L, stepFn_id]

theorem rowsAction_other (now : Int) :
    ∀ (L : List Reminder) (row : Reminder), (∀ s ∈ L, s.id ≠ row.id) →
      rowsAction L now row = row
  | [], _, _ => rfl
  | r :: L, row, h => by
    unfold rowsAction
    rw [List.foldl_cons]
    rw [stepFn_other now r row (fun he => h r (by simp) he.symm)]
    exact rowsAction_other now L row (fun s hs => h s (by simp [hs]))

theorem rowsAction_target (now : Int) (r : Reminder) :
    ∀ (l1 l2 : List Reminder),
      (∀ s ∈ l1, s.id ≠ r.id) → (∀ s ∈ l2, s.id ≠ r.id) →
      rowsAction (l1 ++ r :: l2) now r = stepFn now r r := by
  intro l1 l2 h1 h2
  unfold rowsAction
  rw [List.foldl_append, List.foldl_cons]
  rw [show List.foldl (fun row r => stepFn now r row) r l1 =
      rowsAction l1 now r from rfl]
  rw [rowsAction_other now l1 r h1]
  rw [show List.foldl (fun row r => stepFn now r row) (stepFn now r r) l2 =
      rowsAction l2 now (stepFn now r r) from rfl]
  exact rowsAction_other now l2 _ (by
    intro s hs
    rw [stepFn_id]
    exact h2 s hs)

/-! ## Transport facts about the due query -/

theorem find_due_mem_table {db : List Reminder} {now : Int} {r : Reminder}
    (h : r ∈ find_due_reminders db now) : r ∈ db := by
  unfold find_due_reminders at h
  have h1 := (List.mem_filter.1 h).1
  have h2 := (List.mem_insertionSort rowLe).1 h1
  exact (List.mem_filter.1 h2).1

theorem find_due_is_due {db : List Reminder} {now : Int} {r : Reminder}
    (h : r ∈ find_due_reminders db now) : r.is_due now = true := by
  unfold find_due_reminders at h
  simpa using (List.mem_filter.1 h).2

theorem find_due_coarse {db : List Reminder} {now : Int} {r : Reminder}
    (h : r ∈ find_due_reminders db now) : coarseDue now r = true := by
  unfold find_due_reminders at h
  have h1 := (List.mem_filter.1 h).1
  have h2 := (List.mem_insertionSort rowLe).1 h1
  simpa using (List.mem_filter.1 h2).2

theorem find_due_ids_nodup {db : List Reminder} {now : Int}
    (h : (db.map Reminder.id).Nodup) :
    ((find_due_reminders db now).map Reminder.id).Nodup := by
  unfold find_due_reminders
  have hcoarse : ((db.filter (coarseDue now)).map Reminder.id).Nodup :=
    h.sublist ((List.filter_sublist db).map Reminder.id)
  have hsort : (((db.filter (coarseDue now)).insertionSort rowLe).map
      Reminder.id).Nodup :=
    (((List.perm_insertionSort rowLe _).map Reminder.id).nodup_iff).2 hcoarse
  exact hsort.sublist ((List.filter_sublist _).map Reminder.id)

theorem is_due_active {r : Reminder} {now : Int} (h : r.is_due now = true) :
    r.is_active = true := by
  by_contra hact
  rw [Bool.not_eq_true] at hact
  unfold Reminder.is_due at h
  rw [hact] at h
  simp at h

/-- The final state of one `notification/mod.rs` loop iteration, at the row of
a due reminder `r`: it is exactly `r` after its own processing step (the other
iterations of the batch touch only other ids). -/

theorem loopBody_final_row (d : Reminder → Bool) (db : List Reminder)
    (now : Int) (hnd : (db.map Reminder.id).Nodup) (r : Reminder)
    (hr : r ∈ find_due_reminders db now) (row : Reminder)
    (hrow : row ∈ schedulerLoopBody d db now) (hid : row.id = r.id) :
    row = stepFn now r r := by
  rw [schedulerLoopBody_eq_map] at hrow
  obtain ⟨r0, hr0mem, hr0⟩ := List.mem_map.1 hrow
  have hr0id : r0.id = r.id := by
    rw [← hid, ← hr0, rowsAction_id]
  have hrdb : r ∈ db := find_due_mem_table hr
  have hr0r : r0 = r := List.inj_on_of_nodup_map hnd hr0mem hrdb hr0id
  subst hr0r
  obtain ⟨l1, l2, hdecomp⟩ := List.append_of_mem hr
  have hnddue := @find_due_ids_nodup db now hnd
  rw [hdecomp] at hnddue
  rw [List.map_append, List.map_cons] at hnddue
  have hl1 : ∀ s ∈ l1, s.id ≠ r0.id := by
    intro s hs he
    have : r0.id ∈ l1.map Reminder.id := he ▸ List.mem_map_of_mem _ hs
    exact (List.disjoint_of_nodup_append hnddue) this (by simp)
  have hl2 : ∀ s ∈ l2, s.id ≠ r0.id := by
    intro s hs he
    have hnd2 := (List.nodup_append.1 hnddue).2.1
    rw [List.nodup_cons] at hnd2
    exact hnd2.1 (he ▸ List.mem_map_of_mem _ hs)
  rw [← hr0, hdecomp]
  exact rowsAction_target now r0 l1 l2 hl1 hl2

theorem stepFn_self_last (now : Int) (r : Reminder) :
    (stepFn now r r).last_triggered_at = some now := by
  unfold stepFn
  by_cases hrep : RepeatInterval.is_repeating r.repeat_interval <;>
    cases hnt : r.next_trigger_time <;> simp [hrep, hnt]

/-! ## Claims -/

/-- C1 (counterexample): in `check_and_notify`
(`services/notification_service.rs`), a reported dispatch failure `continue`s
past `mark_as_triggered`: a due reminder processed with a failing sink keeps
`last_triggered_at = None`, so a dispatch failure does prevent the update. -/

theorem c1_dispatch_failure_skips_mark :
    Reminder.is_due cexC1 1768478400 = true ∧
    cexC1 ∈ find_due_reminders [cexC1] 1768478400 ∧
    check_and_notify (fun _ => false) [cexC1] 1768478400 = [cexC1] ∧
    cexC1.last_triggered_at = none := by
  decide

/-- C1 (amended): in the thread-based scheduler loop of `notification/mod.rs`
(the one `main.rs` starts), dispatch outcomes are consumed inside
`trigger_notification` and `mark_as_triggered` is invoked unconditionally
afterwards: whatever the dispatch outcome per reminder, after one loop
iteration the row of every processed due reminder has
`last_triggered_at = now`.  (In the `services` variant `check_and_notify`,
by contrast, a dispatch failure skips `mark_as_triggered`.) -/

theorem c1_loop_marks_triggered_unconditionally
    (dispatchOutcome : Reminder → Bool) (db : List Reminder) (now : Int)
    (hnd : (db.map Reminder.id).Nodup) (r : Reminder)
    (hr : r ∈ find_due_reminders db now) (row : Reminder)
    (hrow : row ∈ schedulerLoopBody dispatchOutcome db now)
    (hid : row.id = r.id) :
    row.last_triggered_at = some now := by
  rw [loopBody_final_row dispatchOutcome db now hnd r hr row hrow hid]
  exact stepFn_self_last now r

theorem c1_witness :
    ((schedulerLoopBody (fun _ => false) [wC1] 1768478400).headD
        wC1).last_triggered_at = some 1768478400 :=
  c1_loop_marks_triggered_unconditionally (fun _ => false) [wC1] 1768478400
    (by decide) wC1 (by decide) _ (by decide) (by decide)

/-- C2 (counterexample): the scheduler loop body never calls `deactivate`:
after a due non-repeating reminder is processed, its row still has
`is_active = true`, contradicting "its `is_active` becomes false after its
single fire". -/

theorem c2_no_deactivate_after_fire :
    RepeatInterval.is_repeating cexC2.repeat_interval = false ∧
    cexC2 ∈ find_due_reminders [cexC2] 1768478400 ∧
    (schedulerLoopBody (fun _ => true) [cexC2] 1768478400).map
        Reminder.is_active = [true] := by
  decide

/-- C2 (amended): processing a due non-repeating reminder in the loop body
only records the trigger: the row keeps `is_active = true`, gets
`last_triggered_at = now`, and is never due again at any time (because
`is_due` requires a non-repeating reminder to have never been triggered) —
re-firing is prevented by `is_due`, not by deactivation. -/

theorem c2_nonrepeating_suppressed_not_deactivated
    (dispatchOutcome : Reminder → Bool) (db : List Reminder) (now : Int)
    (hnd : (db.map Reminder.id).Nodup) (r : Reminder)
    (hr : r ∈ find_due_reminders db now)
    (hnonrep : RepeatInterval.is_repeating r.repeat_interval = false)
    (row : Reminder) (hrow : row ∈ schedulerLoopBody dispatchOutcome db now)
    (hid : row.id = r.id) :
    row.is_active = true ∧ row.last_triggered_at = some now ∧
      ∀ t : Int, row.is_due t = false := by
  have hrow_eq : row = { r with last_triggered_at := some now } := by
    rw [loopBody_final_row dispatchOutcome db now hnd r hr row hrow hid]
    unfold stepFn
    simp [hnonrep]
  refine ⟨?_, ?_, ?_⟩
  · rw [hrow_eq]
    show r.is_active = true
    exact is_due_active (find_due_is_due hr)
  · rw [hrow_eq]
  · intro t
    have hact := is_due_active (find_due_is_due hr)
    rw [hrow_eq]
    unfold Reminder.is_due
    simp [hnonrep, hact]

theorem c2_witness :
    ((schedulerLoopBody (fun _ => true) [wC2] 1768478400).headD
        wC2).is_active = true ∧
    ((schedulerLoopBody (fun _ => true) [wC2] 1768478400).headD
        wC2).last_triggered_at = some 1768478400 ∧
    Reminder.is_due ((schedulerLoopBody (fun _ => true) [wC2] 1768478400).headD
        wC2) 1768999999 = false :=
  have h := c2_nonrepeating_suppressed_not_deactivated (fun _ => true) [wC2]
    1768478400 (by decide) wC2 (by decide) (by decide) _ (by decide) (by decide)
  ⟨h.1, h.2.1, h.2.2 1768999999⟩

/-- C3: `is_due` evaluates exactly as specified — inactive reminders are never
due; an active non-repeating reminder with `remind_at ≤ now` and no previous
trigger is due; an active repeating reminder with `remind_at ≤ now` is due iff
it never triggered or `should_repeat_now` holds of its last trigger. -/

theorem c3_is_due_spec (r : Reminder) (now : Int) :
    (r.is_active = false → r.is_due now = false) ∧
    (r.is_active = true →
      RepeatInterval.is_repeating r.repeat_interval = false →
      r.remind_at ≤ now → r.last_triggered_at = none →
      r.is_due now = true) ∧
    (r.is_active = true →
      RepeatInterval.is_repeating r.repeat_interval = true →
      r.remind_at ≤ now →
      (r.is_due now = true ↔ (r.last_triggered_at = none ∨
        ∃ l, r.last_triggered_at = some l ∧ r.should_repeat_now l now = true))) := by
  refine ⟨?_, ?_, ?_⟩
  · intro hact
    unfold Reminder.is_due
    simp [hact]
  · intro hact hnonrep hle hnone
    unfold Reminder.is_due
    simp [hact, hnonrep, hnone, not_lt.2 hle]
  · intro hact hrep hle
    unfold Reminder.is_due
    cases hlast : r.last_triggered_at with
    | none => simp [hact, hrep, hlast, not_lt.2 hle]
    | some l => simp [hact, hrep, hlast, not_lt.2 hle]

theorem c3_witness :
    Reminder.is_due { cexC1 with is_active := false } 1768478400 = false ∧
    Reminder.is_due cexC1 1768478400 = true ∧
    (Reminder.is_due wC1 1768478400 = true ↔
      (wC1.last_triggered_at = none ∨
        ∃ l, wC1.last_triggered_at = some l ∧
          Reminder.should_repeat_now wC1 l 1768478400 = true)) :=
  ⟨(c3_is_due_spec { cexC1 with is_active := false } 1768478400).1 rfl,
   (c3_is_due_spec cexC1 1768478400).2.1 rfl rfl (by decide) rfl,
   (c3_is_due_spec wC1 1768478400).2.2 rfl (by decide) (by decide)⟩

/-- C4: a reminder whose descriptor parses with kind `"after"` fires at most
once — `should_repeat_now` is false for every `(last, now)` pair and
`next_trigger_time` is `none`, so no further occurrence is ever scheduled. -/

theorem c4_after_fires_at_most_once (r : Reminder) (v : Int) (u : String)
    (hparse : RepeatInterval.parse r.repeat_interval = some ("after", v, u))
    (last_triggered now : Int) :
    r.should_repeat_now last_triggered now = false ∧
    r.next_trigger_time = none := by
  constructor
  · unfold Reminder.should_repeat_now
    rw [hparse]
    simp
  · unfold Reminder.next_trigger_time
    split
    · rfl
    · rw [hparse]
      simp

theorem c4_witness :
    Reminder.should_repeat_now wC4 1768478300 1768999999 = false ∧
    Reminder.next_trigger_time wC4 = none :=
  c4_after_fires_at_most_once wC4 1 "hour" (by decide) 1768478300 1768999999

/-- C5 (evaluation at the failing input): the SQL cool-down clause
`last_triggered_at < datetime('now', '-1 minute')` compares the stored
RFC 3339 text (`...T...+00:00`) against SQLite's `datetime()` format
(`... ...`); on equal dates the byte `'T' > ' '` decides, so the clause is
false for the whole UTC day.  A reminder last triggered 30 s ago is excluded
(as the claim states), but one last triggered 2 minutes ago — past the
1-minute cool-down, and genuinely due per `is_due` — is still excluded; it is
re-admitted only once the date prefix of the threshold exceeds the stored
date (here: the next day). -/

theorem c5_cooldown_format_mismatch :
    coarseDue 1768478400 rC5a = false ∧
    ((1768478400 : Int) - (1768478400 - 120) ≥ 60) ∧
    Reminder.is_due rC5b 1768478400 = true ∧
    coarseDue 1768478400 rC5b = false ∧
    find_due_reminders [rC5b] 1768478400 = [] ∧
    coarseDue 1768478400 rC5c = true ∧
    find_due_reminders [rC5c] 1768478400 = [rC5c] := by
  decide

/-- C6: `find_due_reminders` returns a list sorted ascending in the store's
order on `remind_at` (`rowLe` is the `ORDER BY remind_at ASC` key order on
the stored rendering); every returned reminder satisfies `is_due`; and every
table row passing the coarse SQL filter and the `is_due` re-check is
returned — rows failing the re-check are silently dropped (the function
totalises to a plain list, no error is reported for them). -/

theorem c6_find_due_sorted_and_filtered (db : List Reminder) (now : Int) :
    (find_due_reminders db now).Sorted rowLe ∧
    (∀ r ∈ find_due_reminders db now, r.is_due now = true) ∧
    (∀ r ∈ db, coarseDue now r = true → r.is_due now = true →
      r ∈ find_due_reminders db now) := by
  refine ⟨?_, ?_, ?_⟩
  · exact List.Sorted.filter _ (List.sorted_insertionSort rowLe _)
  · intro r hr
    exact find_due_is_due hr
  · intro r hdb hc hdue
    unfold find_due_reminders
    refine List.mem_filter.2 ⟨?_, by simp [hdue]⟩
    exact (List.mem_insertionSort rowLe).2 (List.mem_filter.2 ⟨hdb, by simp [hc]⟩)

theorem c6_witness : wC6 ∈ find_due_reminders [wC6] 1768478400 :=
  (c6_find_due_sorted_and_filtered [wC6] 1768478400).2.2 wC6 (by decide)
    (by decide) (by decide)

/-- C7: firing the `every_10_minutes` reminder at `T` through one scheduler
iteration records `last_triggered_at = T` and reschedules `remind_at` to
`T + 600`; `next_trigger_time` of the fired reminder is `T + 600`; and on the
rescheduled reminder `is_due (T + 300) = false` while
`is_due (T + 600) = true`. -/

theorem c7_round_trip (T : Int) :
    schedulerLoopBody (fun _ => true) [scenarioA T] T = [scenarioARescheduled T] ∧
    Reminder.next_trigger_time (scenarioAFired T) = some (T + 600) ∧
    Reminder.is_due (scenarioARescheduled T) (T + 300) = false ∧
    Reminder.is_due (scenarioARescheduled T) (T + 600) = true := by
  have hrep : RepeatInterval.is_repeating "every_10_minutes" = true := by decide
  have hparse : RepeatInterval.parse "every_10_minutes" =
      some ("every", 10, "minutes") := by decide
  have hdur : durationSecs "minutes" 10 = some (some 600) := by decide
  have hisdue : Reminder.is_due (scenarioA T) T = true := by
    unfold Reminder.is_due
    simp [scenarioA, hrep]
  have hdue : find_due_reminders [scenarioA T] T = [scenarioA T] := by
    have h2 := hisdue
    simp only [scenarioA] at h2
    have hc : coarseDue T (scenarioA T) = true := by
      unfold coarseDue
      simp [scenarioA, bytesLe_refl]
    simp only [scenarioA] at hc
    unfold find_due_reminders
    simp [List.filter_cons, List.filter_nil, hc, h2, scenarioA,
      List.insertionSort, List.orderedInsert]
  have hntt0 : Reminder.next_trigger_time (scenarioA T) = some (T + 600) := by
    unfold Reminder.next_trigger_time
    simp [scenarioA, hrep, hparse, hdur]
  have hntt : Reminder.next_trigger_time (scenarioAFired T) = some (T + 600) := by
    unfold Reminder.next_trigger_time
    simp [scenarioAFired, scenarioA, hrep, hparse, hdur]
  refine ⟨?_, hntt, ?_, ?_⟩
  · unfold schedulerLoopBody
    rw [hdue]
    simp only [List.foldl_cons, List.foldl_nil, processDueReminder,
      mark_as_triggered, update_next_trigger_time, updateById, hntt0]
    simp [scenarioARescheduled, scenarioAFired, scenarioA, hrep, hntt0]
  · unfold Reminder.is_due
    simp [scenarioARescheduled, scenarioAFired, scenarioA,
      show (T : Int) + 600 > T + 300 by omega]
  · unfold Reminder.is_due Reminder.should_repeat_now
    simp [scenarioARescheduled, scenarioAFired, scenarioA, hrep, hparse, hdur]

/-- C8: a non-`"none"` descriptor that does not split into at least 3
underscore-separated tokens with an integer second token parses to `none`,
still reports `is_repeating`, and makes `should_repeat_now` false for every
pair of instants and `next_trigger_time` equal to `none` — the reminder
behaves as fire-once, and every operation is total (no error, no crash). -/

theorem c8_malformed_fails_safe (s : String) (hne : s ≠ "none")
    (hmal : ¬(3 ≤ (splitUnderscore s.data).length ∧
      (parseI64 ((splitUnderscore s.data).getD 1 [])).isSome = true)) :
    RepeatInterval.parse s = none ∧
    RepeatInterval.is_repeating s = true ∧
    ∀ r : Reminder, r.repeat_interval = s →
      (∀ last_triggered now : Int,
        r.should_repeat_now last_triggered now = false) ∧
      r.next_trigger_time = none := by
  have hparse : RepeatInterval.parse s = none := by
    unfold RepeatInterval.parse
    rw [if_neg hne]
    by_cases hlen : 3 ≤ (splitUnderscore s.data).length
    · rw [if_pos hlen]
      cases hp : parseI64 ((splitUnderscore s.data).getD 1 []) with
      | none => simp [hp]
      | some v => exact absurd ⟨hlen, by rw [hp]; rfl⟩ hmal
    · rw [if_neg hlen]
  refine ⟨hparse, ?_, ?_⟩
  · unfold RepeatInterval.is_repeating
    simp [bne_iff_ne, hne]
  · intro r hr
    constructor
    · intro last_triggered now
      unfold Reminder.should_repeat_now
      rw [hr, hparse]
    · unfold Reminder.next_trigger_time
      split
      · rfl
      · rw [hr, hparse]

theorem c8_witness :
    RepeatInterval.parse "weekly" = none ∧
    RepeatInterval.is_repeating "weekly" = true ∧
    Reminder.should_repeat_now wC8 1768478300 1768478400 = false ∧
    Reminder.next_trigger_time wC8 = none :=
  have h := c8_malformed_fails_safe "weekly" (by decide) (by decide)
  ⟨h.1, h.2.1, (h.2.2 wC8 rfl).1 1768478300 1768478400, (h.2.2 wC8 rfl).2⟩

theorem wrap64_eq_self {x : Int} (h1 : i64Min ≤ x)
    (h2 : x ≤ 9223372036854775807) : wrap64 x = x := by
  unfold i64Min at h1
  unfold wrap64 i64Min
  rw [Int.emod_eq_of_lt (by omega) (by omega)]
  omega

/-- C9 (counterexample): the claim's "true for any zero or negative value"
fails under the source's machine arithmetic.  For the descriptor
`"every_-614891469123651720_months"` — which parses, with a value ≤ 0 — the
release-build `value * 30` wraps to +16, the duration becomes +16 days
(1382400 s), and `should_repeat_now(now − 1, now)` is `false`, so the active
overdue reminder `rC9` carrying it is not due. -/
theorem c9_wrap_counterexample :
    RepeatInterval.parse "every_-614891469123651720_months" =
      some ("every", -614891469123651720, "months") ∧
    (-614891469123651720 : Int) ≤ 0 ∧
    rC9.is_active = true ∧ rC9.remind_at ≤ 1768478400 ∧
    rC9.last_triggered_at = some 1768478399 ∧
    (1768478399 : Int) ≤ 1768478400 ∧
    durationSecs "months" (-614891469123651720) = some (some 1382400) ∧
    Reminder.should_repeat_now rC9 1768478399 1768478400 = false ∧
    Reminder.is_due rC9 1768478400 = false := by
  decide

/-- C9 (amended): `parse` does not enforce positivity of the value token —
`"every_0_seconds"` parses — and for any descriptor parsing as `"every"` with
a non-positive value and a recognized unit, provided the value is small enough
that no `i64` multiplication wraps and no chrono constructor panics
(`i64::MIN ≤ value * 365` and the duration construction completes),
`should_repeat_now` is true whenever `last_triggered ≤ now`, so an active such
reminder with `remind_at ≤ now` is due again on every evaluation. -/
theorem c9_nonpositive_every_always_due :
    RepeatInterval.parse "every_0_seconds" = some ("every", 0, "seconds") ∧
    ∀ (r : Reminder) (k : Int) (u : String) (d last_triggered now : Int),
      RepeatInterval.parse r.repeat_interval = some ("every", k, u) →
      k ≤ 0 → i64Min ≤ k * 365 → durationSecs u k = some (some d) →
      last_triggered ≤ now →
      r.should_repeat_now last_triggered now = true ∧
      (r.is_active = true → r.remind_at ≤ now →
        r.last_triggered_at = some last_triggered → r.is_due now = true) := by
  constructor
  · decide
  · intro r k u d last_triggered now hparse hk hk365 hdur hle
    have hmin : (-9223372036854775808 : Int) ≤ k * 365 := hk365
    have hw30 : wrap64 (k * 30) = k * 30 :=
      wrap64_eq_self (by unfold i64Min; omega) (by omega)
    have hw365 : wrap64 (k * 365) = k * 365 :=
      wrap64_eq_self (by unfold i64Min; omega) (by omega)
    have hd : d ≤ 0 := by
      unfold durationSecs at hdur
      rw [hw30, hw365] at hdur
      unfold chronoSecs at hdur
      split_ifs at hdur <;> simp at hdur <;> omega
    have hsrn : r.should_repeat_now last_triggered now = true := by
      unfold Reminder.should_repeat_now
      rw [hparse]
      simp [hdur, decide_eq_true_eq]
      omega
    refine ⟨hsrn, ?_⟩
    intro hact hra hlast
    have hrep : RepeatInterval.is_repeating r.repeat_interval = true := by
      unfold RepeatInterval.is_repeating
      have hne : r.repeat_interval ≠ "none" := by
        intro he
        rw [he] at hparse
        simp [RepeatInterval.parse] at hparse
      simp [bne_iff_ne, hne]
    unfold Reminder.is_due
    simp [hact, hrep, hlast, hsrn, not_lt.2 hra]

theorem c9_witness :
    Reminder.should_repeat_now wC9 1768478300 1768478400 = true ∧
    Reminder.is_due wC9 1768478400 = true :=
  have h := c9_nonpositive_every_always_due.2 wC9 0 "seconds" 0 1768478300
    1768478400 (by decide) (by decide) (by decide) (by decide) (by decide)
  ⟨h.1, h.2 (by decide) (by decide) (by decide)⟩

/-- C10: frame conditions of the bookkeeping writes — row by row,
`mark_as_triggered` rewrites exactly `last_triggered_at` (to the clock reading
at the call; the Rust function takes no timestamp argument), `deactivate`
rewrites exactly `is_active`, and `update_next_trigger_time` rewrites exactly
`remind_at` and `updated_at`; every other column of every row is unchanged,
and rows with other ids are untouched. -/

theorem c10_frame_conditions (db : List Reminder) (id : String)
    (now next_trigger : Int) :
    List.Forall₂ (fun r r2 =>
      r2.id = r.id ∧ r2.task_id = r.task_id ∧ r2.title = r.title ∧
      r2.description = r.description ∧ r2.remind_at = r.remind_at ∧
      r2.repeat_interval = r.repeat_interval ∧ r2.is_active = r.is_active ∧
      r2.created_at = r.created_at ∧ r2.updated_at = r.updated_at ∧
      r2.last_triggered_at =
        (if r.id = id then some now else r.last_triggered_at))
      db (mark_as_triggered db id now) ∧
    List.Forall₂ (fun r r2 =>
      r2.id = r.id ∧ r2.task_id = r.task_id ∧ r2.title = r.title ∧
      r2.description = r.description ∧ r2.remind_at = r.remind_at ∧
      r2.repeat_interval = r.repeat_interval ∧
      r2.last_triggered_at = r.last_triggered_at ∧
      r2.created_at = r.created_at ∧ r2.updated_at = r.updated_at ∧
      r2.is_active = (if r.id = id then false else r.is_active))
      db (deactivate db id) ∧
    List.Forall₂ (fun r r2 =>
      r2.id = r.id ∧ r2.task_id = r.task_id ∧ r2.title = r.title ∧
      r2.description = r.description ∧
      r2.repeat_interval = r.repeat_interval ∧ r2.is_active = r.is_active ∧
      r2.last_triggered_at = r.last_triggered_at ∧
      r2.created_at = r.created_at ∧
      r2.remind_at = (if r.id = id then next_trigger else r.remind_at) ∧
      r2.updated_at = (if r.id = id then now else r.updated_at))
      db (update_next_trigger_time db id next_trigger now) := by
  refine ⟨?_, ?_, ?_⟩
  · unfold mark_as_triggered updateById
    rw [List.forall₂_map_right_iff, List.forall₂_same]
    intro x _
    by_cases h : x.id = id <;> simp [h]
  · unfold deactivate updateById
    rw [List.forall₂_map_right_iff, List.forall₂_same]
    intro x _
    by_cases h : x.id = id <;> simp [h]
  · unfold update_next_trigger_time updateById
    rw [List.forall₂_map_right_iff, List.forall₂_same]
    intro x _
    by_cases h : x.id = id <;> simp [h]

end TaskReminder
